import Mathlib

/-!
Verification of the mmWave radar data handler (DataHandlerClass.cpp).

The file shallowly embeds the three activities of the handler:

* the Sorter TLV state machine `sortIncomingData` (header parsing, TLV
  dispatch, detected-object decoding, angle filtering, publishing),
* the Reader resync loop `readIncomingData` / `isMagicWord`,
* the Reader/Sorter/Swap synchronization protocol around `countSync`
  (`syncedBufferSwap`), as a labelled transition system.

Conventions of the embedding:
* a byte buffer is a `List ℕ` of little-endian bytes (values < 256 in any
  real stream);
* `std::vector::at`, which throws `std::out_of_range` on a bad index, is
  modelled by `Option`-returning reads; an `.oob` outcome of the sorter
  marks the point where the C++ code would throw;
* `float` arithmetic is modelled exactly over `ℚ`;
* the transcendental functions `tan(d ⬝ pi / 180)` (degrees) and `log10` have
  no exact rational counterpart, so the configuration carries abstract
  functions `tandeg` and `log10q` standing for them; nothing else about the
  code depends on their values.
-/

namespace Mmw

/-! ### Little-endian byte reads (memcpy from `currentBufp->at(...)`) -/

/-- Read a little-endian `uint16_t` at offset `i`; `none` models the
`std::out_of_range` thrown by `vector::at`. -/
def readU16 (buf : List ℕ) (i : ℕ) : Option ℕ :=
  match buf[i]?, buf[i+1]? with
  | some b0, some b1 => some (b0 + 256 * b1)
  | _, _ => none

/-- Read a little-endian `uint32_t` at offset `i`. -/
def readU32 (buf : List ℕ) (i : ℕ) : Option ℕ :=
  match buf[i]?, buf[i+1]?, buf[i+2]?, buf[i+3]? with
  | some b0, some b1, some b2, some b3 =>
    some (b0 + 256 * b1 + 65536 * b2 + 16777216 * b3)
  | _, _, _, _ => none

/-- Reinterpret a 16-bit unsigned value as `int16_t` (the effect of the
`memcpy` into the signed struct fields of `mmwData.objOut`). -/
def toI16 (v : ℕ) : ℤ :=
  if 32768 ≤ v then (v : ℤ) - 65536 else (v : ℤ)

/-- Read a little-endian `int16_t` at offset `i`. -/
def readI16 (buf : List ℕ) (i : ℕ) : Option ℤ :=
  (readU16 buf i).map toI16

/-! ### Frame header (`MmwDemo_output_message_header`, lines 326-397) -/

/-- The frame header fields read in state `READ_HEADER`.  `subFrameNumber`
is 0 when the code does not read it. -/
structure Header where
  version : ℕ
  totalPacketLen : ℕ
  platform : ℕ
  frameNumber : ℕ
  timeCpuCycles : ℕ
  numDetectedObj : ℕ
  numTLVs : ℕ
  subFrameNumber : ℕ
deriving DecidableEq, Repr

/-- The expected header size computed at lines 348-360: 28 bytes when the
SDK version (bits 24..31 / 16..23 of `version`) is older than 1.1 or the
platform low 16 bits are 0x1443, else 32. -/
def headerSizeOf (version platform : ℕ) : ℕ :=
  if (version >>> 24) &&& 0xFF < 1 ∨ (version >>> 16) &&& 0xFF < 1 then 28
  else if platform &&& 0xFFFF = 0x1443 then 28
  else 32

/-- Result of the `READ_HEADER` state: fall through to `SWAP_BUFFERS`,
throw from `vector::at`, or proceed to `CHECK_TLV_TYPE` with the parsed
header and the new cursor. -/
inductive HeaderOutcome where
  | swap : HeaderOutcome
  | oob : HeaderOutcome
  | proceed : Header → ℕ → HeaderOutcome
deriving DecidableEq, Repr

/-- The `READ_HEADER` state (lines 326-397) reading at cursor `c`
(`currentDatap`).  The size guards compare the whole buffer length, the
reads happen at the cursor, exactly as in the code; `subFrameNumber` is
read whenever the platform low 16 bits differ from 0x1443 (line 384),
regardless of the SDK version used for `headerSize`. -/
def readHeaderAt (buf : List ℕ) (c : ℕ) : HeaderOutcome :=
  if buf.length < 12 then .swap else
  match readU32 buf c, readU32 buf (c + 4), readU32 buf (c + 8) with
  | some version, some totalPacketLen, some platform =>
    if buf.length < headerSizeOf version platform then .swap else
    match readU32 buf (c + 12), readU32 buf (c + 16),
          readU32 buf (c + 20), readU32 buf (c + 24) with
    | some frameNumber, some timeCpuCycles, some numDetectedObj, some numTLVs =>
      if platform &&& 0xFFFF ≠ 0x1443 then
        match readU32 buf (c + 28) with
        | some subFrameNumber =>
          if totalPacketLen = buf.length - 4 then
            .proceed ⟨version, totalPacketLen, platform, frameNumber,
                      timeCpuCycles, numDetectedObj, numTLVs, subFrameNumber⟩ (c + 32)
          else .swap
        | none => .oob
      else
        if totalPacketLen = buf.length - 4 then
          .proceed ⟨version, totalPacketLen, platform, frameNumber,
                    timeCpuCycles, numDetectedObj, numTLVs, 0⟩ (c + 28)
        else .swap
    | _, _, _, _ => .oob
  | _, _, _ => .oob

/-! ### TLV types and dispatch (`CHECK_TLV_TYPE`, lines 669-739) -/

/-- Modelled from the spec: the `MmwDemo_Output_TLV_Types` enumeration is
declared in `DataHandlerClass.h`, which is not among the sources.  The
spec's `CHECK_TLV_TYPE` dispatch table fixes the values 0 (null),
1 (detected objects), 2 (range profile), 3 (noise profile), 4 (azimuth
heat map), 5 (range/Doppler heat map), 6 (stats); `MMWDEMO_OUTPUT_MSG_MAX`
is the next enumerator of the C enum, 7. -/
def MMWDEMO_OUTPUT_MSG_NULL : ℕ := 0
def MMWDEMO_OUTPUT_MSG_DETECTED_POINTS : ℕ := 1
def MMWDEMO_OUTPUT_MSG_RANGE_PROFILE : ℕ := 2
def MMWDEMO_OUTPUT_MSG_NOISE_PROFILE : ℕ := 3
def MMWDEMO_OUTPUT_MSG_AZIMUTH_STATIC_HEAT_MAP : ℕ := 4
def MMWDEMO_OUTPUT_MSG_RANGE_DOPPLER_HEAT_MAP : ℕ := 5
def MMWDEMO_OUTPUT_MSG_STATS : ℕ := 6
def MMWDEMO_OUTPUT_MSG_MAX : ℕ := 7

/-- The Sorter states (`SorterState`), excluding `SWAP_BUFFERS` which ends
the processing of the current drain buffer. -/
inductive SState where
  | readHeaderS : SState
  | checkTlvType : SState
  | readObjStructS : SState
  | readLogMagRange : SState
  | readNoise : SState
  | readAzimuth : SState
  | readDoppler : SState
  | readStats : SState
deriving DecidableEq, Repr

/-- The `switch(tlvType)` dispatch of `CHECK_TLV_TYPE` (lines 694-736).
`MMWDEMO_OUTPUT_MSG_NULL` breaks with the state unchanged, types 1-6 go to
their payload states, `MMWDEMO_OUTPUT_MSG_MAX` goes to `READ_HEADER`, and
the `default: break` of any other type also leaves the state unchanged
(still `CHECK_TLV_TYPE`). -/
def tlvNextState (t : ℕ) : SState :=
  if t = MMWDEMO_OUTPUT_MSG_NULL then .checkTlvType
  else if t = MMWDEMO_OUTPUT_MSG_DETECTED_POINTS then .readObjStructS
  else if t = MMWDEMO_OUTPUT_MSG_RANGE_PROFILE then .readLogMagRange
  else if t = MMWDEMO_OUTPUT_MSG_NOISE_PROFILE then .readNoise
  else if t = MMWDEMO_OUTPUT_MSG_AZIMUTH_STATIC_HEAT_MAP then .readAzimuth
  else if t = MMWDEMO_OUTPUT_MSG_RANGE_DOPPLER_HEAT_MAP then .readDoppler
  else if t = MMWDEMO_OUTPUT_MSG_STATS then .readStats
  else if t = MMWDEMO_OUTPUT_MSG_MAX then .readHeaderS
  else .checkTlvType

/-! ### Detected objects (`READ_OBJ_STRUCT`, lines 399-582) -/

/-- One point of the published cloud (`RadarPoint`), with `float` values
modelled over `ℚ`. -/
structure Point where
  x : ℚ
  y : ℚ
  z : ℚ
  intensity : ℚ
  range : ℚ
  doppler : ℚ
deriving DecidableEq, Repr

/-- Configuration of the handler: the conversion constants computed in the
constructor and the two angle limits.  `tandeg d` stands for the real
`tan(d * M_PI / 180.0)` and `log10q v` for `log10(v)`; they are abstract
parameters because those functions have no exact rational value. -/
structure Cfg where
  numDopplerBins : ℤ
  rangeIdxToMeters : ℚ
  dopplerResolutionToMps : ℚ
  maxAllowedElevationAngleDeg : ℤ
  maxAllowedAzimuthAngleDeg : ℤ
  tandeg : ℤ → ℚ
  log10q : ℚ → ℚ

/-- The per-coordinate conversion of lines 493-498: the (dead) sign fixup
followed by `data[j] = (mmwData.objOut.rangeIdx + data[j] * 65536) / xyzQFormat`
with `xyzQFormat = pow(2, mmwData.xyzQFormat)`. -/
def convertCoord (rangeIdx : ℤ) (q : ℕ) (v : ℚ) : ℚ :=
  let v := if v > 32767 then v - 65536 else v
  ((rangeIdx : ℚ) + v * 65536) / 2 ^ q

/-- Decoding of one detected object (lines 471-542): range, Doppler with
negative fold, intensity, the three Cartesian coordinates through
`convertCoord`, and the sensor-to-consumer axis remap
`x := data[1]`, `y := -data[0]`, `z := data[2]`. -/
def mkPoint (cfg : Cfg) (q : ℕ)
    (rangeIdx dopplerIdx peakVal xq yq zq : ℤ) : Point :=
  let d0 := convertCoord rangeIdx q (xq : ℚ)
  let d1 := convertCoord rangeIdx q (yq : ℚ)
  let d2 := convertCoord rangeIdx q (zq : ℚ)
  let d3 : ℚ := 10 * cfg.log10q ((peakVal : ℚ) + 1)
  let d4 : ℚ := (rangeIdx : ℚ) * cfg.rangeIdxToMeters
  let d5 : ℚ :=
    if (dopplerIdx : ℚ) > ((cfg.numDopplerBins / 2 - 1 : ℤ) : ℚ) then
      ((dopplerIdx : ℚ) - (cfg.numDopplerBins : ℚ)) * cfg.dopplerResolutionToMps
    else (dopplerIdx : ℚ) * cfg.dopplerResolutionToMps
  { x := d1, y := -d0, z := d2, intensity := d3, range := d4, doppler := d5 }

/-- `maxElevationAngleRatioSquared` (lines 421-429): `tan` of the limit,
squared, when the limit is in [0, 90), else the sentinel -1 (disabled). -/
def elevationAngleBoundSq (cfg : Cfg) : ℚ :=
  if 0 ≤ cfg.maxAllowedElevationAngleDeg ∧ cfg.maxAllowedElevationAngleDeg < 90 then
    cfg.tandeg cfg.maxAllowedElevationAngleDeg * cfg.tandeg cfg.maxAllowedElevationAngleDeg
  else -1

/-- `maxAzimuthAngleRatio` (lines 430-437): `tan` of the limit when it is
in [0, 90), else the sentinel -1 (disabled). -/
def azimuthAngleBound (cfg : Cfg) : ℚ :=
  if 0 ≤ cfg.maxAllowedAzimuthAngleDeg ∧ cfg.maxAllowedAzimuthAngleDeg < 90 then
    cfg.tandeg cfg.maxAllowedAzimuthAngleDeg
  else -1

/-- The keep condition of lines 548-555: elevation filter disabled or
satisfied, azimuth filter disabled or satisfied, and `x ≠ 0`. -/
def keepPoint (melev maz : ℚ) (p : Point) : Bool :=
  (decide (melev = -1) || decide (p.z * p.z / (p.x * p.x + p.y * p.y) < melev)) &&
  (decide (maz = -1) || decide (|p.y / p.x| < maz)) &&
  decide (p.x ≠ 0)

/-- The object loop of lines 445-567 for `n` remaining objects at cursor
`c`: each object reads six `int16_t` fields, is converted by `mkPoint` and
kept or dropped by `keepPoint`; the loop always consumes the declared
number of objects (a drop decrements the loop bound and the write index
together), so the kept points are exactly the surviving prefix of the
cloud.  Returns the kept points and the new cursor. -/
def readObjLoop (cfg : Cfg) (buf : List ℕ) (melev maz : ℚ) (q : ℕ) :
    ℕ → ℕ → Option (List Point × ℕ)
  | 0, c => some ([], c)
  | n + 1, c =>
    match readI16 buf c, readI16 buf (c + 2), readI16 buf (c + 4),
          readI16 buf (c + 6), readI16 buf (c + 8), readI16 buf (c + 10) with
    | some rangeIdx, some dopplerIdx, some peakVal, some xq, some yq, some zq =>
      let p := mkPoint cfg q rangeIdx dopplerIdx peakVal xq yq zq
      match readObjLoop cfg buf melev maz q n (c + 12) with
      | some (ps, c2) => some ((if keepPoint melev maz p then p :: ps else ps), c2)
      | none => none
    | _, _, _, _, _, _ => none

/-- The `READ_OBJ_STRUCT` state (lines 399-582): read `numObjOut` and
`xyzQFormat` (both `uint16_t`), run the object loop, and return the
published cloud (the resized `RScan`) together with the new cursor. -/
def readObjStruct (cfg : Cfg) (buf : List ℕ) (c : ℕ) :
    Option (List Point × ℕ) :=
  match readU16 buf c, readU16 buf (c + 2) with
  | some numObjOut, some q =>
    readObjLoop cfg buf (elevationAngleBoundSq cfg) (azimuthAngleBound cfg) q
      numObjOut (c + 4)
  | _, _ => none

/-! ### The Sorter driver over one drain buffer -/

/-- How the processing of one drain buffer ends: reaching `SWAP_BUFFERS`,
throwing `std::out_of_range` from `vector::at` (`.oob`), or exhausting the
fuel of the model (never reached from `sortFrame`'s fuel). -/
inductive Outcome where
  | swapped : Outcome
  | oob : Outcome
  | outOfFuel : Outcome
deriving DecidableEq, Repr

/-- Result of sorting one drain buffer: the point clouds published on the
way (one per detected-objects TLV) and how the processing ended. -/
structure SortResult where
  clouds : List (List Point)
  outcome : Outcome
deriving DecidableEq, Repr

/-- One pass of `sortIncomingData` (lines 320-768) over the drain buffer,
from the current state until `SWAP_BUFFERS` or a thrown `vector::at`.
Arguments: fuel, state, current header, cursor (`currentDatap`),
`tlvCount`, `tlvLen`, clouds published so far. -/
def runSorter (cfg : Cfg) (buf : List ℕ) :
    ℕ → SState → Header → ℕ → ℕ → ℕ → List (List Point) → SortResult
  | 0, _, _, _, _, _, pub => ⟨pub, .outOfFuel⟩
  | fuel + 1, st, hdr, cursor, tlvCount, tlvLen, pub =>
    match st with
    | .readHeaderS =>
      match readHeaderAt buf cursor with
      | .swap => ⟨pub, .swapped⟩
      | .oob => ⟨pub, .oob⟩
      | .proceed h c => runSorter cfg buf fuel .checkTlvType h c tlvCount tlvLen pub
    | .checkTlvType =>
      if hdr.numTLVs ≤ tlvCount then ⟨pub, .swapped⟩
      else
        match readU32 buf cursor, readU32 buf (cursor + 4) with
        | some ty, some len =>
          runSorter cfg buf fuel (tlvNextState ty) hdr (cursor + 8) (tlvCount + 1) len pub
        | _, _ => ⟨pub, .oob⟩
    | .readObjStructS =>
      match readObjStruct cfg buf cursor with
      | some (cloud, c2) =>
        runSorter cfg buf fuel .checkTlvType hdr c2 tlvCount tlvLen (pub ++ [cloud])
      | none => ⟨pub, .oob⟩
    | .readLogMagRange =>
      runSorter cfg buf fuel .checkTlvType hdr (cursor + tlvLen) tlvCount tlvLen pub
    | .readNoise =>
      runSorter cfg buf fuel .checkTlvType hdr (cursor + tlvLen) tlvCount tlvLen pub
    | .readAzimuth =>
      runSorter cfg buf fuel .checkTlvType hdr (cursor + tlvLen) tlvCount tlvLen pub
    | .readDoppler =>
      runSorter cfg buf fuel .checkTlvType hdr (cursor + tlvLen) tlvCount tlvLen pub
    | .readStats =>
      runSorter cfg buf fuel .checkTlvType hdr (cursor + tlvLen) tlvCount tlvLen pub

/-- Sort one complete drain buffer, starting in `READ_HEADER` with cursor
0 and `tlvCount` 0 (the resets done in `SWAP_BUFFERS`, lines 758-759).
The fuel `buf.length + 2` is sufficient because every iteration of
`CHECK_TLV_TYPE` that continues consumes at least 8 bytes of cursor. -/
def sortFrame (cfg : Cfg) (buf : List ℕ) : SortResult :=
  runSorter cfg buf (buf.length + 2) .readHeaderS ⟨0, 0, 0, 0, 0, 0, 0, 0⟩ 0 0 0 []

/-! ### Reader (readIncomingData and isMagicWord, lines 128-261) -/

/-- One step of the 8-byte sliding window (lines 165-172 and 182-189):
drop the oldest byte and append the newly read byte at position 7. -/
def slide (w : List ℕ) (b : ℕ) : List ℕ := w.drop 1 ++ [b]

/-- The window contents after consuming the bytes `bs`. -/
def windowAfter (w : List ℕ) (bs : List ℕ) : List ℕ := bs.foldl slide w

/-- The initial resync loop (lines 161-174): test `isMagicWord` (an
elementwise comparison of the window with the magic word, lines 241-261),
and while it fails shift the window and read one more byte.  The
consumed bytes are not written to any frame buffer.  Returns the matched
window and the unconsumed rest of the stream, or `none` if the stream
ends first. -/
def resync (mw : List ℕ) : List ℕ → List ℕ → Option (List ℕ × List ℕ)
  | w, [] => if w = mw then some (w, []) else none
  | w, b :: r => if w = mw then some (w, b :: r) else resync mw (slide w b) r

/-- The main read loop (lines 179-232): read a byte, slide the window,
append the byte to the fill buffer; when the window matches the magic
word, hand the buffer over as a completed frame, then clear the buffer
and zero the window (lines 227-228) and continue.  Returns the list of
frames handed over, in order. -/
def readerLoop (mw : List ℕ) : List ℕ → List ℕ → List ℕ → List (List ℕ)
  | _, _, [] => []
  | w, buf, b :: r =>
    let w2 := slide w b
    let buf2 := buf ++ [b]
    if w2 = mw then buf2 :: readerLoop mw (List.replicate 8 0) [] r
    else readerLoop mw w2 buf2 r

/-- The frames the Reader hands to the Sorter for a whole input stream:
initial resync from the zeroed window, then the main loop starting with
an empty fill buffer.  A stream exhausted during resync produces no
frames. -/
def readerFrames (mw : List ℕ) (s : List ℕ) : List (List ℕ) :=
  match resync mw (List.replicate 8 0) s with
  | none => []
  | some (w, rest) => readerLoop mw w [] rest

lemma slide_length (w : List ℕ) (b : ℕ) (h : 1 ≤ w.length) :
    (slide w b).length = w.length := by
  simp [slide]
  omega

lemma windowAfter_drop (v : List ℕ) : ∀ w : List ℕ, 1 ≤ w.length →
    windowAfter w v = (w ++ v).drop v.length := by
  induction v with
  | nil => intro w h; simp [windowAfter]
  | cons b v ih =>
    intro w h
    have hs : windowAfter w (b :: v) = windowAfter (slide w b) v := rfl
    rw [hs, ih (slide w b) (by rw [slide_length w b h]; omega)]
    have h1 : (w ++ b :: v).drop (v.length + 1) = ((w ++ b :: v).drop 1).drop v.length := by
      rw [List.drop_drop]
      congr 1
      omega
    have h2 : (w ++ b :: v).drop 1 = w.drop 1 ++ b :: v :=
      List.drop_append_of_le_length h
    simp only [List.length_cons, h1, h2]
    congr 1
    simp [slide]

lemma windowAfter_suffix (w u mw : List ℕ) (hw : w.length = 8)
    (hmw : mw.length = 8) : windowAfter w (u ++ mw) = mw := by
  rw [windowAfter_drop (u ++ mw) w (by omega), ← List.append_assoc]
  have h2 : (u ++ mw).length = (w ++ u).length := by
    simp [hw, hmw]
    omega
  rw [h2, List.drop_left]

lemma resync_mw (mw : List ℕ) (s : List ℕ) : resync mw mw s = some (mw, s) := by
  cases s <;> simp [resync]

lemma resync_no_early_match (mw : List ℕ) :
    ∀ u w v, (∀ k, k < u.length → windowAfter w (u.take k) ≠ mw) →
      resync mw w (u ++ v) = resync mw (windowAfter w u) v := by
  intro u
  induction u with
  | nil => intro w v _; simp [windowAfter]
  | cons b u ih =>
    intro w v h
    have h0 : w ≠ mw := by
      have := h 0 (by simp)
      simpa [windowAfter] using this
    have hstep : resync mw w (b :: (u ++ v)) = resync mw (slide w b) (u ++ v) := by
      simp [resync, h0]
    rw [List.cons_append, hstep,
      ih (slide w b) v (fun k hk => by
        have := h (k + 1) (by simp; omega)
        simpa [windowAfter, List.take_succ_cons] using this)]
    rfl

/-- C8: for any garbage prefix `g` in which (and in whose junction with
the magic word) no sliding-window match occurs before the full magic word
is consumed, the initial resync consumes exactly `g ++ mw` without
writing anything to the fill buffer, and the frames emitted for
`g ++ mw ++ rest` are exactly the frames emitted for `mw ++ rest`.  The
two no-early-match hypotheses spell out the claim's premise that the
prepended bytes precede the first magic-word occurrence. -/
theorem c8_resync_garbage_invariance (mw g rest : List ℕ)
    (hmw : mw.length = 8)
    (h1 : ∀ k, k < mw.length → windowAfter (List.replicate 8 0) (mw.take k) ≠ mw)
    (hg : ∀ k, k < (g ++ mw).length →
      windowAfter (List.replicate 8 0) ((g ++ mw).take k) ≠ mw) :
    resync mw (List.replicate 8 0) (g ++ (mw ++ rest)) = some (mw, rest) ∧
    readerFrames mw (g ++ (mw ++ rest)) = readerFrames mw (mw ++ rest) := by
  have hzw : (List.replicate 8 0 : List ℕ).length = 8 := by simp
  have eg : resync mw (List.replicate 8 0) (g ++ (mw ++ rest)) = some (mw, rest) := by
    have e1 : g ++ (mw ++ rest) = (g ++ mw) ++ rest := by simp
    rw [e1, resync_no_early_match mw (g ++ mw) (List.replicate 8 0) rest hg,
      windowAfter_suffix _ g mw hzw hmw, resync_mw]
  have em : resync mw (List.replicate 8 0) (mw ++ rest) = some (mw, rest) := by
    have e1 : mw ++ rest = ([] ++ mw) ++ rest := by simp
    rw [e1, resync_no_early_match mw ([] ++ mw) (List.replicate 8 0) rest (by simpa using h1),
      windowAfter_suffix _ [] mw hzw hmw, resync_mw]
  refine ⟨eg, ?_⟩
  unfold readerFrames
  rw [eg, em]

/-- The magic word of the TI demo stream, used as a concrete witness
value (its bytes are immaterial to the theorem). -/
def mwW : List ℕ := [2, 1, 4, 3, 6, 5, 8, 7]

/-- A concrete garbage prefix for the C8 witness. -/
def gW : List ℕ := [9, 9, 9]

theorem c8_resync_garbage_invariance_witness :
    mwW.length = 8 ∧
    (∀ k, k < mwW.length → windowAfter (List.replicate 8 0) (mwW.take k) ≠ mwW) ∧
    (∀ k, k < (gW ++ mwW).length →
      windowAfter (List.replicate 8 0) ((gW ++ mwW).take k) ≠ mwW) ∧
    (resync mwW (List.replicate 8 0) (gW ++ (mwW ++ [0, 1])) = some (mwW, [0, 1]) ∧
     readerFrames mwW (gW ++ (mwW ++ [0, 1])) = readerFrames mwW (mwW ++ [0, 1])) :=
  ⟨by decide, by decide, by decide,
    c8_resync_garbage_invariance mwW gW [0, 1] (by decide) (by decide) (by decide)⟩

/-! ### The countSync synchronization protocol (lines 195-228, 263-298,
741-763)

The three threads interact through `countSync` (protected by
`countSync_mutex`), the condition variables `countSync_max_cv`,
`read_go_cv` and `sort_go_cv`, and the two buffer pointers.  Every
protocol action of the code runs entirely under `countSync_mutex`, so the
protocol is modelled as an interleaving of atomic actions.  Condition
variables are modelled with the standard semantics: a signal wakes a
waiting thread and is lost when nobody waits; spurious wakeups are not
modelled.  `COUNT_SYNC_MAX` is 2 (the spec's barrier threshold). -/

inductive RState where
  | rRun : RState
  | rWait : RState
deriving DecidableEq, Repr

inductive SorterSync where
  | sInit : SorterSync
  | sWaitFirst : SorterSync
  | sRun : SorterSync
  | sWaitDone : SorterSync
deriving DecidableEq, Repr

inductive WState where
  | wIdle : WState
  | wWaitMax : WState
  | wWoken : WState
deriving DecidableEq, Repr

/-- The synchronization-relevant state: the Reader (running or blocked on
`read_go_cv`), the Sorter (before its first wait at lines 314-316, blocked
on `sort_go_cv`, running, or blocked after incrementing in
`SWAP_BUFFERS`), the Swap thread (between iterations, blocked on
`countSync_max_cv`, or woken and about to swap), the
`firstPacketReady` flag of the Reader, `countSync`, and which ping-pong
buffer is the fill buffer. -/
structure MState where
  reader : RState
  sorter : SorterSync
  swap : WState
  firstPacketReady : Bool
  countSync : ℕ
  fillIsPing : Bool
deriving DecidableEq, Repr

/-- Reader frame boundary (lines 196-221): under the counter lock,
increment `countSync` (twice for the very first frame), signal
`countSync_max_cv` when it reaches 2, and wait on `read_go_cv`. -/
def readerBoundaryEff (s : MState) : MState :=
  let c := s.countSync + (if s.firstPacketReady then 1 else 2)
  { s with reader := .rWait, firstPacketReady := true, countSync := c,
           swap := if c = 2 ∧ s.swap = .wWaitMax then .wWoken else s.swap }

/-- Sorter drain completion (`SWAP_BUFFERS`, lines 741-753): increment
`countSync`, signal `countSync_max_cv` when it reaches 2, wait on
`sort_go_cv`. -/
def sorterDoneEff (s : MState) : MState :=
  let c := s.countSync + 1
  { s with sorter := .sWaitDone, countSync := c,
           swap := if c = 2 ∧ s.swap = .wWaitMax then .wWoken else s.swap }

/-- The body of the Swap loop after waking from `countSync_max_cv`
(lines 273-288): exchange the fill/drain buffer pointers, reset
`countSync` to 0, signal `sort_go_cv` and `read_go_cv` (waking the
threads blocked on them; a signal to a non-waiting thread is lost), and
return to waiting (the loop guard `countSync < 2` holds again). -/
def swapExchangeEff (s : MState) : MState :=
  { reader := if s.reader = .rWait then .rRun else s.reader,
    sorter := if s.sorter = .sWaitFirst ∨ s.sorter = .sWaitDone then .sRun else s.sorter,
    swap := .wWaitMax,
    firstPacketReady := s.firstPacketReady,
    countSync := 0,
    fillIsPing := !s.fillIsPing }

inductive MLabel where
  | sorterInitWait : MLabel
  | swapEnter : MLabel
  | readerBoundary : MLabel
  | sorterDone : MLabel
  | swapExchange : MLabel
deriving DecidableEq, Repr

/-- One atomic protocol action of one of the three threads.  `swapEnter`
is the Swap thread checking the loop guard `countSync < COUNT_SYNC_MAX`
(line 269): if it holds it waits on `countSync_max_cv`, otherwise it
skips the loop body and spins (the wakeup signal was lost).
`swapExchange` is the pointer exchange, only possible after a wakeup. -/
inductive Step : MState → MLabel → MState → Prop where
  | sorterInitWait (s : MState) (h : s.sorter = .sInit) :
      Step s .sorterInitWait { s with sorter := .sWaitFirst }
  | swapEnterWait (s : MState) (h : s.swap = .wIdle) (hc : s.countSync < 2) :
      Step s .swapEnter { s with swap := .wWaitMax }
  | swapEnterSpin (s : MState) (h : s.swap = .wIdle) (hc : 2 ≤ s.countSync) :
      Step s .swapEnter s
  | readerBoundary (s : MState) (h : s.reader = .rRun) :
      Step s .readerBoundary (readerBoundaryEff s)
  | sorterDone (s : MState) (h : s.sorter = .sRun) :
      Step s .sorterDone (sorterDoneEff s)
  | swapExchange (s : MState) (h : s.swap = .wWoken) :
      Step s .swapExchange (swapExchangeEff s)

/-- The initial state right after `start()` (line 788 sets
`countSync = 0`; all three threads are spawned, none waiting yet). -/
def initMState : MState :=
  ⟨.rRun, .sInit, .wIdle, false, 0, true⟩

inductive Reachable : MState → Prop where
  | init : Reachable initMState
  | step {s t : MState} {l : MLabel} : Reachable s → Step s l t → Reachable t

/-- The inductive invariant of the protocol: the five shapes of reachable
states (before the first frame; after a lost barrier signal; Swap woken;
after the first `sort_go_cv` signal was lost; normal operation). -/
def MInv (s : MState) : Prop :=
  (s.firstPacketReady = false ∧ s.reader = .rRun ∧
    (s.sorter = .sInit ∨ s.sorter = .sWaitFirst) ∧
    (s.swap = .wIdle ∨ s.swap = .wWaitMax) ∧ s.countSync = 0)
  ∨ (s.firstPacketReady = true ∧ s.reader = .rWait ∧
      (s.sorter = .sInit ∨ s.sorter = .sWaitFirst) ∧
      s.swap = .wIdle ∧ s.countSync = 2)
  ∨ (s.firstPacketReady = true ∧ s.reader = .rWait ∧
      (s.sorter = .sInit ∨ s.sorter = .sWaitFirst ∨ s.sorter = .sWaitDone) ∧
      s.swap = .wWoken ∧ s.countSync = 2)
  ∨ (s.firstPacketReady = true ∧ (s.sorter = .sInit ∨ s.sorter = .sWaitFirst) ∧
      s.swap = .wWaitMax ∧
      ((s.reader = .rRun ∧ s.countSync = 0) ∨ (s.reader = .rWait ∧ s.countSync = 1)))
  ∨ (s.firstPacketReady = true ∧ s.swap = .wWaitMax ∧
      ((s.reader = .rRun ∧ s.sorter = .sRun ∧ s.countSync = 0)
        ∨ (s.reader = .rWait ∧ s.sorter = .sRun ∧ s.countSync = 1)
        ∨ (s.reader = .rRun ∧ s.sorter = .sWaitDone ∧ s.countSync = 1)))

lemma minv_init : MInv initMState := by
  simp [MInv, initMState]

lemma minv_step (s t : MState) (l : MLabel) (hs : MInv s) (hst : Step s l t) :
    MInv t := by
  rcases hs with ⟨hf, hr, hso | hso, hw | hw, hc⟩
    | ⟨hf, hr, hso | hso, hw, hc⟩
    | ⟨hf, hr, hso | hso | hso, hw, hc⟩
    | ⟨hf, hso | hso, hw, ⟨hr, hc⟩ | ⟨hr, hc⟩⟩
    | ⟨hf, hw, ⟨hr, hso, hc⟩ | ⟨hr, hso, hc⟩ | ⟨hr, hso, hc⟩⟩ <;>
  cases hst with
  | sorterInitWait h => simp_all [MInv]
  | swapEnterWait h hc2 => simp_all [MInv]
  | swapEnterSpin h hc2 => simp_all [MInv]
  | readerBoundary h => simp_all [MInv, readerBoundaryEff]
  | sorterDone h => simp_all [MInv, sorterDoneEff]
  | swapExchange h => simp_all [MInv, swapExchangeEff]

lemma minv_reachable (s : MState) (h : Reachable s) : MInv s := by
  induction h with
  | init => exact minv_init
  | step hr hst ih => exact minv_step _ _ _ ih hst

/-- C9: in every reachable state `countSync` is at most 2, and whenever
the Swap thread performs the buffer exchange, `countSync` equals 2 at
that moment, the exchange flips the fill/drain roles, and it is
immediately followed (within the same critical section) by resetting
`countSync` to 0 and signalling both resume conditions: the Reader (which
is always waiting then) returns to running, and so does the Sorter
whenever it is blocked on `sort_go_cv`. -/
theorem c9_swap_barrier_invariant (s : MState) (hr : Reachable s) :
    s.countSync ≤ 2 ∧
    ∀ t, Step s .swapExchange t →
      s.countSync = 2 ∧ t.countSync = 0 ∧ t.fillIsPing = !s.fillIsPing ∧
      s.reader = .rWait ∧ t.reader = .rRun ∧
      ((s.sorter = .sWaitFirst ∨ s.sorter = .sWaitDone) → t.sorter = .sRun) := by
  have hinv := minv_reachable s hr
  constructor
  · rcases hinv with h | h | h | h | h <;> omega
  · intro t hst
    cases hst with
    | swapExchange h =>
      have hc : s.countSync = 2 ∧ s.reader = .rWait := by
        rcases hinv with h2 | h2 | h2 | h2 | h2 <;> simp_all
      refine ⟨hc.1, rfl, rfl, hc.2, ?_, ?_⟩
      · simp [swapExchangeEff, hc.2]
      · intro hso
        simp [swapExchangeEff, hso]

def c9s1 : MState := { initMState with swap := .wWaitMax }
def c9s2 : MState := { c9s1 with sorter := .sWaitFirst }
def c9s3 : MState := readerBoundaryEff c9s2

theorem c9_swap_barrier_invariant_witness :
    c9s3.countSync ≤ 2 ∧
    (c9s3.countSync = 2 ∧ (swapExchangeEff c9s3).countSync = 0 ∧
      (swapExchangeEff c9s3).fillIsPing = !c9s3.fillIsPing ∧
      c9s3.reader = .rWait ∧ (swapExchangeEff c9s3).reader = .rRun ∧
      ((c9s3.sorter = .sWaitFirst ∨ c9s3.sorter = .sWaitDone) →
        (swapExchangeEff c9s3).sorter = .sRun)) := by
  have hr : Reachable c9s3 :=
    Reachable.step
      (Reachable.step
        (Reachable.step Reachable.init
          (Step.swapEnterWait initMState rfl (by decide)))
        (Step.sorterInitWait c9s1 rfl))
      (Step.readerBoundary c9s2 rfl)
  have h := c9_swap_barrier_invariant c9s3 hr
  exact ⟨h.1, h.2 (swapExchangeEff c9s3) (Step.swapExchange c9s3 (by decide))⟩

/-! ### Concrete test fixtures -/

/-- A concrete configuration: `numDopplerBins = 16`,
`rangeIdxToMeters = 1/20`, `dopplerResolutionToMps = 1`, both angle
filters disabled (90 degrees), `tandeg` constantly 1 and `log10q`
constantly 2 (so that `intensity = 10 * log10(100) = 20` for
`peakVal = 99`). -/
def cfgW : Cfg :=
  { numDopplerBins := 16, rangeIdxToMeters := 1/20, dopplerResolutionToMps := 1,
    maxAllowedElevationAngleDeg := 90, maxAllowedAzimuthAngleDeg := 90,
    tandeg := fun _ => 1, log10q := fun _ => 2 }

/-- A 52-byte drain buffer: version 0, `totalPacketLen` 48 (= 52 - 4),
platform 0x1443, `numDetectedObj` 0, one TLV of type 1 (detected objects)
of length 16 declaring one object `rangeIdx = 10`, `dopplerIdx = 0`,
`peakVal = 99`, `x = 0`, `y = 256`, `z = 0` with `xyzQFormat = 8`. -/
def bufC6 : List ℕ :=
  [0,0,0,0, 48,0,0,0, 67,20,0,0, 1,0,0,0, 0,0,0,0, 0,0,0,0, 1,0,0,0,
   1,0,0,0, 16,0,0,0,
   1,0, 8,0,
   10,0, 0,0, 99,0, 0,0, 0,1, 0,0]

/-- The single point published from `bufC6` under `cfgW`. -/
def pW : Point :=
  { x := 8388613/128, y := -5/128, z := 5/128, intensity := 20, range := 1/2,
    doppler := 0 }

/-- A 40-byte drain buffer: header as in `bufC6` but `totalPacketLen`
36 and `numDetectedObj` 5, one detected-objects TLV declaring zero
objects (`numObj = 0`, `xyzQFormat = 8`). -/
def bufC10 : List ℕ :=
  [0,0,0,0, 36,0,0,0, 67,20,0,0, 2,0,0,0, 0,0,0,0, 5,0,0,0, 1,0,0,0,
   1,0,0,0, 4,0,0,0,
   0,0, 8,0]

/-- A 28-byte drain buffer: a bare header with `totalPacketLen` 24
(= 28 - 4) announcing `numTLVs = 1` but carrying no TLV bytes. -/
def bufC7 : List ℕ :=
  [0,0,0,0, 24,0,0,0, 67,20,0,0, 0,0,0,0, 0,0,0,0, 0,0,0,0, 1,0,0,0]

/-- A 16-byte drain buffer whose `totalPacketLen` field reads 12
(= 16 - 4) but which is shorter than any header. -/
def bufC2 : List ℕ := [0,0,0,0, 12,0,0,0, 67,20,0,0, 0,0,0,0]

/-- A 36-byte drain buffer with version 0 (SDK 0.0 < 1.1) and platform
0x1642, `totalPacketLen` 32 (= 36 - 4), `numTLVs` 0; bytes 28-31 are
[7,7,7,7] and bytes 32-35 are padding. -/
def bufC3 : List ℕ :=
  [0,0,0,0, 32,0,0,0, 66,22,0,0, 0,0,0,0, 0,0,0,0, 0,0,0,0, 0,0,0,0,
   7,7,7,7, 9,9,9,9]

/-- The header parsed from `bufC6`. -/
def hdrC6 : Header := ⟨0, 48, 0x1443, 1, 0, 0, 1, 0⟩

/-! ### Evaluation lemmas for the fixtures -/

lemma bufC6_header : readHeaderAt bufC6 0 = .proceed hdrC6 28 := by decide

lemma bufC6_point : mkPoint cfgW 8 10 0 99 0 256 0 = pW := by
  norm_num [mkPoint, convertCoord, cfgW, pW]

lemma bufC6_keep :
    keepPoint (elevationAngleBoundSq cfgW) (azimuthAngleBound cfgW) pW = true := by
  norm_num [keepPoint, elevationAngleBoundSq, azimuthAngleBound, cfgW, pW]

lemma bufC6_objLoop :
    readObjLoop cfgW bufC6 (elevationAngleBoundSq cfgW) (azimuthAngleBound cfgW)
      8 1 40 = some ([pW], 52) := by
  have h0 : readI16 bufC6 40 = some 10 := by decide
  have h1 : readI16 bufC6 42 = some 0 := by decide
  have h2 : readI16 bufC6 44 = some 99 := by decide
  have h3 : readI16 bufC6 46 = some 0 := by decide
  have h4 : readI16 bufC6 48 = some 256 := by decide
  have h5 : readI16 bufC6 50 = some 0 := by decide
  simp [readObjLoop, h0, h1, h2, h3, h4, h5, bufC6_point, bufC6_keep]

lemma bufC6_objStruct : readObjStruct cfgW bufC6 36 = some ([pW], 52) := by
  have hn : readU16 bufC6 36 = some 1 := by decide
  have hq : readU16 bufC6 38 = some 8 := by decide
  simp only [readObjStruct, hn, hq]
  norm_num
  exact bufC6_objLoop

lemma bufC6_step1 (f : ℕ) (pub : List (List Point)) :
    runSorter cfgW bufC6 (f + 1) .readHeaderS ⟨0, 0, 0, 0, 0, 0, 0, 0⟩ 0 0 0 pub
      = runSorter cfgW bufC6 f .checkTlvType hdrC6 28 0 0 pub := by
  simp only [runSorter, bufC6_header]

lemma bufC6_step2 (f : ℕ) (pub : List (List Point)) :
    runSorter cfgW bufC6 (f + 1) .checkTlvType hdrC6 28 0 0 pub
      = runSorter cfgW bufC6 f .readObjStructS hdrC6 36 1 16 pub := by
  have ht : readU32 bufC6 28 = some 1 := by decide
  have hl : readU32 bufC6 32 = some 16 := by decide
  have hty : tlvNextState 1 = .readObjStructS := by decide
  simp only [runSorter, hdrC6, ht, hl, hty]
  norm_num

lemma bufC6_step3 (f : ℕ) (pub : List (List Point)) :
    runSorter cfgW bufC6 (f + 1) .readObjStructS hdrC6 36 1 16 pub
      = runSorter cfgW bufC6 f .checkTlvType hdrC6 52 1 16 (pub ++ [[pW]]) := by
  simp only [runSorter, bufC6_objStruct]

lemma bufC6_step4 (f : ℕ) (pub : List (List Point)) :
    runSorter cfgW bufC6 (f + 1) .checkTlvType hdrC6 52 1 16 pub
      = ⟨pub, .swapped⟩ := by
  simp only [runSorter, hdrC6]
  norm_num

lemma bufC6_clouds : (sortFrame cfgW bufC6).clouds = [[pW]] := by
  have e0 : bufC6.length + 2 = 53 + 1 := by decide
  unfold sortFrame
  rw [e0, bufC6_step1, show (53 : ℕ) = 52 + 1 from rfl, bufC6_step2,
    show (52 : ℕ) = 51 + 1 from rfl, bufC6_step3,
    show (51 : ℕ) = 50 + 1 from rfl, bufC6_step4]
  simp

/-! ### General lemmas about the object loop and the driver -/

lemma readObjLoop_length (cfg : Cfg) (buf : List ℕ) (melev maz : ℚ) (q : ℕ) :
    ∀ n c ps c2, readObjLoop cfg buf melev maz q n c = some (ps, c2) →
      ps.length ≤ n := by
  intro n
  induction n with
  | zero =>
    intro c ps c2 h
    simp only [readObjLoop, Option.some.injEq, Prod.mk.injEq] at h
    obtain ⟨h1, -⟩ := h
    simp [← h1]
  | succ n ih =>
    intro c ps c2 h
    simp only [readObjLoop] at h
    split at h
    · split at h
      · rename_i ps' c2' heq
        simp only [Option.some.injEq, Prod.mk.injEq] at h
        obtain ⟨h1, -⟩ := h
        have := ih _ _ _ heq
        subst h1
        split <;> simp <;> omega
      · exact absurd h (by simp)
    · exact absurd h (by simp)

lemma readObjLoop_mem_keep (cfg : Cfg) (buf : List ℕ) (melev maz : ℚ) (q : ℕ) :
    ∀ n c ps c2, readObjLoop cfg buf melev maz q n c = some (ps, c2) →
      ∀ p ∈ ps, keepPoint melev maz p = true := by
  intro n
  induction n with
  | zero =>
    intro c ps c2 h
    simp only [readObjLoop, Option.some.injEq, Prod.mk.injEq] at h
    obtain ⟨h1, -⟩ := h
    simp [← h1]
  | succ n ih =>
    intro c ps c2 h
    simp only [readObjLoop] at h
    split at h
    · split at h
      · rename_i ps' c2' heq
        simp only [Option.some.injEq, Prod.mk.injEq] at h
        obtain ⟨h1, -⟩ := h
        subst h1
        intro p hp
        split at hp
        · rename_i hkeep
          rcases List.mem_cons.1 hp with h2 | h2
          · subst h2; exact hkeep
          · exact ih _ _ _ heq p h2
        · exact ih _ _ _ heq p hp
      · exact absurd h (by simp)
    · exact absurd h (by simp)

lemma readObjStruct_elim (cfg : Cfg) (buf : List ℕ) (c : ℕ) (cl : List Point)
    (c2 : ℕ) (h : readObjStruct cfg buf c = some (cl, c2)) :
    ∃ n q, readU16 buf c = some n ∧ readU16 buf (c + 2) = some q ∧
      readObjLoop cfg buf (elevationAngleBoundSq cfg) (azimuthAngleBound cfg) q
        n (c + 4) = some (cl, c2) := by
  unfold readObjStruct at h
  split at h
  · rename_i n q hn hq
    exact ⟨n, q, hn, hq, h⟩
  · exact absurd h (by simp)

/-- Every cloud in the result of the sorter either was already in the
accumulator or is the output of `readObjStruct` at some cursor. -/
lemma runSorter_clouds_src (cfg : Cfg) (buf : List ℕ) :
    ∀ fuel st hdr cursor t tl pub cl,
      cl ∈ (runSorter cfg buf fuel st hdr cursor t tl pub).clouds →
      cl ∈ pub ∨ ∃ c0 c2, readObjStruct cfg buf c0 = some (cl, c2) := by
  intro fuel
  induction fuel with
  | zero =>
    intro st hdr cursor t tl pub cl h
    exact Or.inl h
  | succ fuel ih =>
    intro st hdr cursor t tl pub cl h
    cases st <;> simp only [runSorter] at h
    case readHeaderS =>
      split at h
      · exact Or.inl h
      · exact Or.inl h
      · exact ih _ _ _ _ _ _ _ h
    case checkTlvType =>
      split at h
      · exact Or.inl h
      · split at h
        · exact ih _ _ _ _ _ _ _ h
        · exact Or.inl h
    case readObjStructS =>
      split at h
      · rename_i cloud c2 heq
        rcases ih _ _ _ _ _ _ _ h with hin | hobj
        · rcases List.mem_append.1 hin with h1 | h1
          · exact Or.inl h1
          · right
            rcases List.mem_singleton.1 h1 with rfl
            exact ⟨cursor, c2, heq⟩
        · exact Or.inr hobj
      · exact Or.inl h
    case readLogMagRange => exact ih _ _ _ _ _ _ _ h
    case readNoise => exact ih _ _ _ _ _ _ _ h
    case readAzimuth => exact ih _ _ _ _ _ _ _ h
    case readDoppler => exact ih _ _ _ _ _ _ _ h
    case readStats => exact ih _ _ _ _ _ _ _ h

lemma sortFrame_clouds_src (cfg : Cfg) (buf : List ℕ) (cl : List Point)
    (h : cl ∈ (sortFrame cfg buf).clouds) :
    ∃ c0 c2, readObjStruct cfg buf c0 = some (cl, c2) := by
  rcases runSorter_clouds_src cfg buf _ _ _ _ _ _ _ _ h with hin | hobj
  · exact absurd hin (by simp)
  · exact hobj

/-! ### Claim theorems -/

/-- C4 counterexample: a TLV of type 8 (not one of 0..6) does not send
the sorter to `READ_HEADER`: the `default: break` of the dispatch switch
leaves it in `CHECK_TLV_TYPE`. -/
theorem c4_unknown_tlv_counterexample :
    tlvNextState 8 = .checkTlvType ∧ tlvNextState 8 ≠ .readHeaderS := by decide

/-- C4 amended: only TLV type 7 (`MMWDEMO_OUTPUT_MSG_MAX`) resets the
sorter to `READ_HEADER`; every type 8 and above falls into
`default: break` and leaves the sorter in `CHECK_TLV_TYPE` (so the
payload is not skipped and the next 8 bytes are read as a TLV header). -/
theorem c4_tlv_dispatch_above_six (t : ℕ) (h : 7 ≤ t) :
    tlvNextState t = if t = 7 then SState.readHeaderS else SState.checkTlvType := by
  have h0 : t ≠ 0 := by omega
  have h1 : t ≠ 1 := by omega
  have h2 : t ≠ 2 := by omega
  have h3 : t ≠ 3 := by omega
  have h4 : t ≠ 4 := by omega
  have h5 : t ≠ 5 := by omega
  have h6 : t ≠ 6 := by omega
  simp only [tlvNextState, MMWDEMO_OUTPUT_MSG_NULL, MMWDEMO_OUTPUT_MSG_DETECTED_POINTS,
    MMWDEMO_OUTPUT_MSG_RANGE_PROFILE, MMWDEMO_OUTPUT_MSG_NOISE_PROFILE,
    MMWDEMO_OUTPUT_MSG_AZIMUTH_STATIC_HEAT_MAP, MMWDEMO_OUTPUT_MSG_RANGE_DOPPLER_HEAT_MAP,
    MMWDEMO_OUTPUT_MSG_STATS, MMWDEMO_OUTPUT_MSG_MAX, h0, h1, h2, h3, h4, h5, h6,
    if_false]

theorem c4_tlv_dispatch_above_six_witness :
    7 ≤ 9 ∧ tlvNextState 9 = if 9 = 7 then SState.readHeaderS else SState.checkTlvType :=
  ⟨by decide, c4_tlv_dispatch_above_six 9 (by decide)⟩

lemma readU32_isSome (buf : List ℕ) (i : ℕ) (h : i + 4 ≤ buf.length) :
    ∃ v, readU32 buf i = some v := by
  have h0 : i < buf.length := by omega
  have h1 : i + 1 < buf.length := by omega
  have h2 : i + 2 < buf.length := by omega
  have h3 : i + 3 < buf.length := by omega
  unfold readU32
  rw [List.getElem?_eq_getElem h0, List.getElem?_eq_getElem h1,
      List.getElem?_eq_getElem h2, List.getElem?_eq_getElem h3]
  exact ⟨_, rfl⟩

lemma headerSizeOf_le32 (v p : ℕ) : headerSizeOf v p ≤ 32 := by
  unfold headerSizeOf
  split
  · omega
  · split <;> omega

lemma headerSizeOf_1443 (v p : ℕ) (h : p &&& 0xFFFF = 0x1443) :
    headerSizeOf v p = 28 := by
  simp [headerSizeOf, h]

/-- C2 amended: provided the drain buffer holds at least 28 bytes when
the platform low 16 bits are 0x1443 and at least 32 bytes otherwise
(enough for the header variant the code actually reads), `READ_HEADER`
goes to `SWAP_BUFFERS` (and the whole frame produces no cloud) exactly
when `totalPacketLen ≠ size - 4`, and proceeds to `CHECK_TLV_TYPE`
exactly when `totalPacketLen = size - 4`.  Without the length proviso the
equality direction fails (see the counterexample). -/
theorem c2_totalPacketLen_gate (cfg : Cfg) (buf : List ℕ) (v tpl plat : ℕ)
    (hv : readU32 buf 0 = some v) (ht : readU32 buf 4 = some tpl)
    (hp : readU32 buf 8 = some plat)
    (hlen : (if plat &&& 0xFFFF = 0x1443 then 28 else 32) ≤ buf.length) :
    (tpl ≠ buf.length - 4 →
      readHeaderAt buf 0 = .swap ∧ sortFrame cfg buf = ⟨[], .swapped⟩) ∧
    (tpl = buf.length - 4 → ∃ hdr c, readHeaderAt buf 0 = .proceed hdr c) := by
  have h28 : 28 ≤ buf.length := by
    by_cases hpl : plat &&& 0xFFFF = 0x1443
    · rw [if_pos hpl] at hlen; omega
    · rw [if_neg hpl] at hlen; omega
  have h12 : ¬ buf.length < 12 := by omega
  have hhs : ¬ buf.length < headerSizeOf v plat := by
    by_cases hpl : plat &&& 0xFFFF = 0x1443
    · have := headerSizeOf_1443 v plat hpl; omega
    · rw [if_neg hpl] at hlen
      have := headerSizeOf_le32 v plat; omega
  have ht' : readU32 buf (0 + 4) = some tpl := by simpa using ht
  have hp' : readU32 buf (0 + 8) = some plat := by simpa using hp
  obtain ⟨fn, hfn⟩ := readU32_isSome buf (0 + 12) (by omega)
  obtain ⟨tc, htc⟩ := readU32_isSome buf (0 + 16) (by omega)
  obtain ⟨nd, hnd⟩ := readU32_isSome buf (0 + 20) (by omega)
  obtain ⟨nt, hnt⟩ := readU32_isSome buf (0 + 24) (by omega)
  by_cases hpl : plat &&& 0xFFFF = 0x1443
  · have hform : readHeaderAt buf 0 =
        if tpl = buf.length - 4 then
          .proceed ⟨v, tpl, plat, fn, tc, nd, nt, 0⟩ (0 + 28)
        else .swap := by
      simp only [readHeaderAt, if_neg h12, hv, ht', hp', if_neg hhs, hfn, htc,
        hnd, hnt, hpl, ne_eq, not_true_eq_false, if_false, ite_eq_ite]
    refine ⟨fun hne => ⟨by rw [hform, if_neg hne], ?_⟩,
            fun heq => ⟨_, _, by rw [hform, if_pos heq]⟩⟩
    have hsw : readHeaderAt buf 0 = .swap := by rw [hform, if_neg hne]
    unfold sortFrame
    rw [show buf.length + 2 = buf.length + 1 + 1 from rfl]
    simp only [runSorter, hsw]
  · have h32 : 32 ≤ buf.length := by rw [if_neg hpl] at hlen; exact hlen
    obtain ⟨sfn, hsfn⟩ := readU32_isSome buf (0 + 28) (by omega)
    have hform : readHeaderAt buf 0 =
        if tpl = buf.length - 4 then
          .proceed ⟨v, tpl, plat, fn, tc, nd, nt, sfn⟩ (0 + 32)
        else .swap := by
      simp only [readHeaderAt, if_neg h12, hv, ht', hp', if_neg hhs, hfn, htc,
        hnd, hnt, hsfn, ne_eq, hpl, not_false_eq_true, if_true, ite_eq_ite]
    refine ⟨fun hne => ⟨by rw [hform, if_neg hne], ?_⟩,
            fun heq => ⟨_, _, by rw [hform, if_pos heq]⟩⟩
    have hsw : readHeaderAt buf 0 = .swap := by rw [hform, if_neg hne]
    unfold sortFrame
    rw [show buf.length + 2 = buf.length + 1 + 1 from rfl]
    simp only [runSorter, hsw]

theorem c2_totalPacketLen_gate_witness :
    readU32 bufC6 0 = some 0 ∧ readU32 bufC6 4 = some 48 ∧
    readU32 bufC6 8 = some 5187 ∧
    (if (5187 : ℕ) &&& 0xFFFF = 0x1443 then 28 else 32) ≤ bufC6.length ∧
    (48 : ℕ) = bufC6.length - 4 ∧
    (∃ hdr c, readHeaderAt bufC6 0 = .proceed hdr c) :=
  ⟨by decide, by decide, by decide, by decide, by decide,
    (c2_totalPacketLen_gate cfgW bufC6 0 48 5187 (by decide) (by decide)
      (by decide) (by decide)).2 (by decide)⟩

lemma keepPoint_eq_true (melev maz : ℚ) (p : Point)
    (h : keepPoint melev maz p = true) :
    (melev = -1 ∨ p.z * p.z / (p.x * p.x + p.y * p.y) < melev) ∧
    (maz = -1 ∨ |p.y / p.x| < maz) ∧ p.x ≠ 0 := by
  simpa [keepPoint, and_assoc] using h

/-- C5: every point of every published cloud has `x ≠ 0`; when the
elevation limit is in [0, 90) the point satisfies
`z^2 / (x^2 + y^2) < tan(maxElev)^2`, and when the azimuth limit is in
[0, 90) it satisfies `|y / x| < tan(maxAz)`.  The hypothesis
`0 ≤ tandeg maxAz` records that the tangent of an angle in [0, 90)
degrees is nonnegative (so the computed ratio never collides with the
-1 sentinel); for the squared elevation bound this is automatic. -/
theorem c5_published_points_filtered (cfg : Cfg) (buf : List ℕ)
    (haz : 0 ≤ cfg.tandeg cfg.maxAllowedAzimuthAngleDeg) :
    ∀ cl ∈ (sortFrame cfg buf).clouds, ∀ p ∈ cl,
      p.x ≠ 0 ∧
      (0 ≤ cfg.maxAllowedElevationAngleDeg → cfg.maxAllowedElevationAngleDeg < 90 →
        p.z * p.z / (p.x * p.x + p.y * p.y) <
          cfg.tandeg cfg.maxAllowedElevationAngleDeg *
            cfg.tandeg cfg.maxAllowedElevationAngleDeg) ∧
      (0 ≤ cfg.maxAllowedAzimuthAngleDeg → cfg.maxAllowedAzimuthAngleDeg < 90 →
        |p.y / p.x| < cfg.tandeg cfg.maxAllowedAzimuthAngleDeg) := by
  intro cl hcl p hp
  obtain ⟨c0, c2, hobj⟩ := sortFrame_clouds_src cfg buf cl hcl
  obtain ⟨n, q, -, -, hloop⟩ := readObjStruct_elim cfg buf c0 cl c2 hobj
  have hkeep := readObjLoop_mem_keep cfg buf _ _ q n _ cl c2 hloop p hp
  obtain ⟨helev, hazv, hx⟩ := keepPoint_eq_true _ _ p hkeep
  refine ⟨hx, ?_, ?_⟩
  · intro he0 he90
    have hval : elevationAngleBoundSq cfg =
        cfg.tandeg cfg.maxAllowedElevationAngleDeg *
          cfg.tandeg cfg.maxAllowedElevationAngleDeg := by
      rw [elevationAngleBoundSq, if_pos ⟨he0, he90⟩]
    rcases helev with hm1 | hlt
    · rw [hval] at hm1
      have := mul_self_nonneg (cfg.tandeg cfg.maxAllowedElevationAngleDeg)
      rw [hm1] at this
      linarith
    · rw [hval] at hlt
      exact hlt
  · intro ha0 ha90
    have hval : azimuthAngleBound cfg = cfg.tandeg cfg.maxAllowedAzimuthAngleDeg := by
      rw [azimuthAngleBound, if_pos ⟨ha0, ha90⟩]
    rcases hazv with hm1 | hlt
    · rw [hval] at hm1
      rw [hm1] at haz
      linarith
    · rw [hval] at hlt
      exact hlt

theorem c5_published_points_filtered_witness :
    (0 : ℚ) ≤ cfgW.tandeg cfgW.maxAllowedAzimuthAngleDeg ∧
    [pW] ∈ (sortFrame cfgW bufC6).clouds ∧ pW ∈ [pW] ∧
    (pW.x ≠ 0 ∧
      (0 ≤ cfgW.maxAllowedElevationAngleDeg → cfgW.maxAllowedElevationAngleDeg < 90 →
        pW.z * pW.z / (pW.x * pW.x + pW.y * pW.y) <
          cfgW.tandeg cfgW.maxAllowedElevationAngleDeg *
            cfgW.tandeg cfgW.maxAllowedElevationAngleDeg) ∧
      (0 ≤ cfgW.maxAllowedAzimuthAngleDeg → cfgW.maxAllowedAzimuthAngleDeg < 90 →
        |pW.y / pW.x| < cfgW.tandeg cfgW.maxAllowedAzimuthAngleDeg)) :=
  ⟨by norm_num [cfgW], by simp [bufC6_clouds], by simp,
    c5_published_points_filtered cfgW bufC6 (by norm_num [cfgW]) [pW]
      (by simp [bufC6_clouds]) pW (by simp)⟩

/-- C6 amended: every published point cloud has at most as many points as
the `numObj` field (`mmwData.numObjOut`, a `uint16_t`) declared by the
detected-objects TLV it was decoded from; the frame header's
`numDetectedObj` is never consulted. -/
theorem c6_cloud_bounded_by_tlv_numObj (cfg : Cfg) (buf : List ℕ) (cl : List Point)
    (h : cl ∈ (sortFrame cfg buf).clouds) :
    ∃ c c2 n q, readObjStruct cfg buf c = some (cl, c2) ∧
      readU16 buf c = some n ∧ readU16 buf (c + 2) = some q ∧ cl.length ≤ n := by
  obtain ⟨c0, c2, hobj⟩ := sortFrame_clouds_src cfg buf cl h
  obtain ⟨n, q, hn, hq, hloop⟩ := readObjStruct_elim cfg buf c0 cl c2 hobj
  exact ⟨c0, c2, n, q, hobj, hn, hq, readObjLoop_length cfg buf _ _ q n _ cl c2 hloop⟩

theorem c6_cloud_bounded_by_tlv_numObj_witness :
    [pW] ∈ (sortFrame cfgW bufC6).clouds ∧
    (∃ c c2 n q, readObjStruct cfgW bufC6 c = some ([pW], c2) ∧
      readU16 bufC6 c = some n ∧ readU16 bufC6 (c + 2) = some q ∧
      List.length [pW] ≤ n) :=
  ⟨by simp [bufC6_clouds],
    c6_cloud_bounded_by_tlv_numObj cfgW bufC6 [pW] (by simp [bufC6_clouds])⟩

/-- C1: the claim states the pre-remap Cartesian coordinates equal
`signed16(rawQ) / 2 ^ xyzQFormat`.  The code instead computes
`(rangeIdx + rawQ * 65536) / 2 ^ xyzQFormat` (line 497): at
`rangeIdx = 10`, `xQ = 256`, `xyzQFormat = 8` the code yields
`16777226 / 256 = 8388613/128` where the claim demands `256 / 256 = 1`. -/
theorem c1_qformat_conversion_bug :
    convertCoord 10 8 256 = 8388613 / 128 ∧ (256 : ℚ) / 2 ^ 8 = 1 ∧
    convertCoord 10 8 256 ≠ (256 : ℚ) / 2 ^ 8 := by
  refine ⟨?_, ?_, ?_⟩ <;> norm_num [convertCoord]

/-- C2 counterexample: a 16-byte drain buffer whose `totalPacketLen`
field equals `size - 4 = 12`, yet `READ_HEADER` goes to `SWAP_BUFFERS`
(the buffer is shorter than the 28-byte header), refuting the claim that
`totalPacketLen = size - 4` always leads to `CHECK_TLV_TYPE`. -/
theorem c2_short_buffer_counterexample :
    readU32 bufC2 4 = some 12 ∧ bufC2.length - 4 = 12 ∧
    readHeaderAt bufC2 0 = .swap := by decide

/-- C3: with version 0 (SDK 0.0, older than 1.1) and platform 0x1642 the
code determines a 28-byte header, but line 384 tests only the platform, so
`subFrameNumber` is read anyway and 32 bytes are consumed (`bufC3`); on a
28-byte buffer of the same shape the read of bytes 28..31 throws
`std::out_of_range`.  This refutes the claim that `subFrameNumber` is read
if and only if the determined header size is 32. -/
theorem c3_subframe_read_despite_28_byte_header :
    headerSizeOf 0 0x1642 = 28 ∧
    readHeaderAt bufC3 0 = .proceed ⟨0, 32, 0x1642, 0, 0, 0, 0, 117901063⟩ 32 ∧
    readHeaderAt (bufC3.take 28) 0 = .oob := by decide

/-- C6 counterexample: the frame `bufC6` declares `numDetectedObj = 0` in
its header but its detected-objects TLV declares one object, which
survives the filter; the published cloud has 1 > 0 points, refuting the
claim that clouds never exceed the header's `numDetectedObj`. -/
theorem c6_header_count_counterexample :
    readHeaderAt bufC6 0 = .proceed hdrC6 28 ∧
    (sortFrame cfgW bufC6).clouds = [[pW]] ∧
    hdrC6.numDetectedObj < List.length [pW] := by
  refine ⟨by decide, bufC6_clouds, by decide⟩

/-- C7: a header-complete frame (`totalPacketLen = size - 4`) that
announces one TLV but carries no TLV bytes makes `CHECK_TLV_TYPE` read
past the end of the drain buffer: the code throws `std::out_of_range`
(`.oob`) instead of falling back to `SWAP_BUFFERS` as the claim
requires. -/
theorem c7_cursor_overrun_throws :
    readHeaderAt bufC7 0 = .proceed ⟨0, 24, 0x1443, 0, 0, 0, 1, 0⟩ 28 ∧
    sortFrame cfgW bufC7 = ⟨[], .oob⟩ := by decide

/-- C10: a frame whose detected-objects TLV declares zero objects reaches
the publish step with an empty cloud, so the `RScan->points[0]` read at
line 573 is out of bounds; this refutes the claim that at least one point
survives in every frame that reaches the publish step. -/
theorem c10_empty_cloud_reaches_publish :
    (sortFrame cfgW bufC10).outcome = .swapped ∧
    (sortFrame cfgW bufC10).clouds = [[]] ∧
    ∀ cl ∈ (sortFrame cfgW bufC10).clouds, ¬ 0 < cl.length := by decide

end Mmw
